import Mathlib

/-!
Shallow embedding of the StyleShare post-interaction subsystem
(`src/backend/src/routes/post/controller.ts`).

The controllers are Express handlers over a Prisma store. We embed each
controller as a pure function from the request context and the slice of
database state it touches to a response outcome together with the updated
state. Prisma semantics modelled:

* `findUnique` / `findFirst` return an `Option`;
* `update` on a missing row throws, which the controller's `try/catch`
  converts into a 500 response — mutations already performed by earlier
  `await`s persist (the controllers use no transaction);
* counter updates use relative increments/decrements, modelled on `Int`
  (the database integer type admits negative values).

Identifiers are `Nat`; only a single (user, post) pair's state is carried
where the controller touches only that pair.
-/

namespace StyleShare

/-- A `UserPostInteraction` row's mutable fields (`liked`, `disliked`). -/
structure Interaction where
  liked : Bool
  disliked : Bool
deriving DecidableEq

/-- The `likes` / `dislikes` counters of a `Post` row. -/
structure PostCounters where
  likes : Int
  dislikes : Int
deriving DecidableEq

/-- The slice of the store read and written by the like/dislike controllers
for one (user, post) pair: the interaction row (if any) and the post row
(if any). -/
structure ReactionState where
  interaction : Option Interaction
  post : Option PostCounters
deriving DecidableEq

/-- Request context: `req.userId` set by the auth middleware, and the
`verified` flag of the caller's user row (`none` when no user row exists).
The like/dislike controllers never read `user`. -/
structure ReqCtx where
  userId : Option Nat
  user : Option Bool
deriving DecidableEq

/-- Response outcome of the like/dislike controllers. `ok` carries the
re-read `likes` and `dislikes` counters returned in the 200 body. -/
inductive ReactOutcome where
  | invalidUser
  | alreadyReacted
  | ok (likes dislikes : Int)
  | storageError
deriving DecidableEq

/-- HTTP status attached to each outcome by the controller. -/
def ReactOutcome.status : ReactOutcome → Nat
  | .invalidUser => 400
  | .alreadyReacted => 400
  | .ok _ _ => 200
  | .storageError => 500

/-- `likePostController`: reject a missing `userId`; look up the
interaction row; if it exists and `liked` is already set, reject with
"already liked"; otherwise upsert the row to `liked := true,
disliked := false` and apply the counter delta (`likes` +1, and `dislikes`
-1 only when the prior row had `disliked` set). A missing post makes
`prisma.post.update` throw after the interaction write, surfaced as 500. -/
def likePost (ctx : ReqCtx) (s : ReactionState) : ReactOutcome × ReactionState :=
  match ctx.userId with
  | none => (.invalidUser, s)
  | some _ =>
    match s.interaction with
    | some inter =>
      if inter.liked then (.alreadyReacted, s)
      else
        let s1 : ReactionState := { s with interaction := some ⟨true, false⟩ }
        match s1.post with
        | none => (.storageError, s1)
        | some p =>
          let p' : PostCounters :=
            { likes := p.likes + 1
              dislikes := if inter.disliked then p.dislikes - 1 else p.dislikes }
          (.ok p'.likes p'.dislikes, { s1 with post := some p' })
    | none =>
      let s1 : ReactionState := { s with interaction := some ⟨true, false⟩ }
      match s1.post with
      | none => (.storageError, s1)
      | some p =>
        let p' : PostCounters := { p with likes := p.likes + 1 }
        (.ok p'.likes p'.dislikes, { s1 with post := some p' })

/-- `dislikePostController`, symmetric to `likePost`: upsert to
`liked := false, disliked := true`, increment `dislikes`, and decrement
`likes` only when the prior row had `liked` set. -/
def dislikePost (ctx : ReqCtx) (s : ReactionState) : ReactOutcome × ReactionState :=
  match ctx.userId with
  | none => (.invalidUser, s)
  | some _ =>
    match s.interaction with
    | some inter =>
      if inter.disliked then (.alreadyReacted, s)
      else
        let s1 : ReactionState := { s with interaction := some ⟨false, true⟩ }
        match s1.post with
        | none => (.storageError, s1)
        | some p =>
          let p' : PostCounters :=
            { likes := if inter.liked then p.likes - 1 else p.likes
              dislikes := p.dislikes + 1 }
          (.ok p'.likes p'.dislikes, { s1 with post := some p' })
    | none =>
      let s1 : ReactionState := { s with interaction := some ⟨false, true⟩ }
      match s1.post with
      | none => (.storageError, s1)
      | some p =>
        let p' : PostCounters := { p with dislikes := p.dislikes + 1 }
        (.ok p'.likes p'.dislikes, { s1 with post := some p' })

/-- A reaction request: one call to the like or dislike controller. -/
inductive Action where
  | like
  | dislike
deriving DecidableEq

/-- Dispatch one reaction request. -/
def applyAction (ctx : ReqCtx) (s : ReactionState) : Action → ReactOutcome × ReactionState
  | .like => likePost ctx s
  | .dislike => dislikePost ctx s

/-- Run a sequence of reaction requests from the same caller, keeping only
the evolving store state. -/
def runActions (ctx : ReqCtx) (s : ReactionState) : List Action → ReactionState
  | [] => s
  | a :: rest => runActions ctx (applyAction ctx s a).2 rest

/-- Mutual-exclusion invariant on the stored interaction row: `liked` and
`disliked` are not both set. -/
def mutualExclB (s : ReactionState) : Bool :=
  Option.all (fun i => !(i.liked && i.disliked)) s.interaction

/-- Response outcome of the favorite/unfavorite controllers. -/
inductive FavOutcome where
  | invalidUser
  | forbidden
  | alreadyFavorited
  | notFavorited
  | ok
  | storageError
deriving DecidableEq

/-- HTTP status attached to each favorite outcome. -/
def FavOutcome.status : FavOutcome → Nat
  | .invalidUser => 400
  | .forbidden => 403
  | .alreadyFavorited => 400
  | .notFavorited => 400
  | .ok => 200
  | .storageError => 500

/-- `favoritePostController`: reject a missing `userId` (400), reject an
unverified caller (`!user?.verified`, 403), reject when the Favorite row
already exists (400), otherwise create the row. The Favorite slice for one
(user, post) pair is a single `Bool`: row present or absent. -/
def favoritePost (ctx : ReqCtx) (fav : Bool) : FavOutcome × Bool :=
  match ctx.userId with
  | none => (.invalidUser, fav)
  | some _ =>
    if ctx.user = some true then
      if fav then (.alreadyFavorited, fav) else (.ok, true)
    else (.forbidden, fav)

/-- `unfavoritePostController`: same guards, then reject when no Favorite
row exists (400), otherwise delete the row. -/
def unfavoritePost (ctx : ReqCtx) (fav : Bool) : FavOutcome × Bool :=
  match ctx.userId with
  | none => (.invalidUser, fav)
  | some _ =>
    if ctx.user = some true then
      if fav then (.ok, false) else (.notFavorited, fav)
    else (.forbidden, fav)

/-- Response outcome of the create-post / create-comment controllers
(both return 403 for a missing `userId`, 403 for an unverified caller;
create-post additionally returns 411 on schema-validation failure). -/
inductive CreateOutcome where
  | invalidUser
  | forbidden
  | invalidInputs
  | created
  | storageError
deriving DecidableEq

/-- HTTP status attached to each create outcome. -/
def CreateOutcome.status : CreateOutcome → Nat
  | .invalidUser => 403
  | .forbidden => 403
  | .invalidInputs => 411
  | .created => 201
  | .storageError => 500

/-- `createCommentController`: `userId` guard, then verified guard, then
`prisma.comment.create`. The comment table is abstracted to its row
count; creation appends one row. -/
def createComment (ctx : ReqCtx) (comments : Nat) : CreateOutcome × Nat :=
  match ctx.userId with
  | none => (.invalidUser, comments)
  | some _ =>
    if ctx.user = some true then (.created, comments + 1)
    else (.forbidden, comments)

/-- `createPostController`: `userId` guard, verified guard, zod schema
validation (`valid` is the result of `createPostSchema.safeParse`), then
`prisma.post.create`. The post table is abstracted to its row count. -/
def createPost (ctx : ReqCtx) (valid : Bool) (posts : Nat) : CreateOutcome × Nat :=
  match ctx.userId with
  | none => (.invalidUser, posts)
  | some _ =>
    if ctx.user = some true then
      if valid then (.created, posts + 1) else (.invalidInputs, posts)
    else (.forbidden, posts)

/-- The slice of the store touched by `deletePostController` for one post:
the post row (carrying its `authorId`) and the counts of child rows
referencing the post. -/
structure DeleteState where
  post : Option Nat
  interactions : Nat
  comments : Nat
  favorites : Nat
deriving DecidableEq

/-- Response outcome of the delete-post controller. -/
inductive DeleteOutcome where
  | invalidUser
  | notFound
  | forbidden
  | ok
  | storageError
deriving DecidableEq

/-- HTTP status attached to each delete outcome. -/
def DeleteOutcome.status : DeleteOutcome → Nat
  | .invalidUser => 403
  | .notFound => 404
  | .forbidden => 403
  | .ok => 200
  | .storageError => 500

/-- `deletePostController`: `userId` guard (403), post lookup (404),
author check (403), then four sequential `await`s with no surrounding
transaction: `userPostInteraction.deleteMany`, `comment.deleteMany`,
`favorite.deleteMany`, `post.delete`. `failAt = some k` models the k-th
of these storage calls (0-based) throwing; the catch block answers 500
and every delete already performed persists. -/
def deletePost (userId : Option Nat) (failAt : Option Nat) (s : DeleteState) :
    DeleteOutcome × DeleteState :=
  match userId with
  | none => (.invalidUser, s)
  | some uid =>
    match s.post with
    | none => (.notFound, s)
    | some authorId =>
      if authorId = uid then
        if failAt = some 0 then (.storageError, s) else
        let s1 : DeleteState := { s with interactions := 0 }
        if failAt = some 1 then (.storageError, s1) else
        let s2 : DeleteState := { s1 with comments := 0 }
        if failAt = some 2 then (.storageError, s2) else
        let s3 : DeleteState := { s2 with favorites := 0 }
        if failAt = some 3 then (.storageError, s3) else
        (.ok, { s3 with post := none })
      else (.forbidden, s)

/-- A user row as read by `getLeaderboardController`: id, username, and
the `likes` counters of the user's authored posts (`_count.posts` is the
length of this list). -/
structure LUser where
  id : Nat
  username : String
  postLikes : List Int
deriving DecidableEq

/-- Per-user aggregate built by the leaderboard's first `map`. -/
structure ULike where
  id : Nat
  username : String
  postCount : Nat
  totalLikes : Int
deriving DecidableEq

/-- One leaderboard entry of the response body. -/
structure LEntry where
  rank : Nat
  userId : Nat
  username : String
  postCount : Nat
  totalLikes : Int
deriving DecidableEq

/-- The per-user aggregation: `postCount` is `_count.posts`, `totalLikes`
is `posts.reduce((sum, post) => sum + post.likes, 0)`. -/
def userLikesOf (u : LUser) : ULike :=
  ⟨u.id, u.username, u.postLikes.length, u.postLikes.foldl (· + ·) 0⟩

/-- The comparator `(a, b) => b.totalLikes - a.totalLikes` orders `a`
before `b` exactly when `b.totalLikes ≤ a.totalLikes`. -/
def byLikesDesc (a b : ULike) : Prop := b.totalLikes ≤ a.totalLikes

instance : DecidableRel byLikesDesc :=
  fun a b => inferInstanceAs (Decidable (b.totalLikes ≤ a.totalLikes))

instance : IsTotal ULike byLikesDesc := ⟨fun a b => le_total b.totalLikes a.totalLikes⟩

instance : IsTrans ULike byLikesDesc := ⟨fun _ _ _ hab hbc => le_trans hbc hab⟩

/-- `userLikes.sort((a, b) => b.totalLikes - a.totalLikes)`:
`Array.prototype.sort` is stable (ES2019), so the JS call is the stable
descending sort by `totalLikes`; stable insertion sort computes exactly
that, placing each element before the first earlier-sorted element whose
`totalLikes` does not exceed its own. -/
def sortDesc (l : List ULike) : List ULike := List.insertionSort byLikesDesc l

/-- `getLeaderboardController`: aggregate per user, sort descending by
`totalLikes`, keep the top 10, and emit entries with `rank = index + 1`. -/
def computeLeaderboard (users : List LUser) : List LEntry :=
  (((sortDesc (users.map userLikesOf)).take 10).enum).map
    fun p => ⟨p.1 + 1, p.2.id, p.2.username, p.2.postCount, p.2.totalLikes⟩

example : likePost ⟨some 1, some true⟩ ⟨none, some ⟨0, 0⟩⟩
    = (.ok 1 0, ⟨some ⟨true, false⟩, some ⟨1, 0⟩⟩) := by decide

example : dislikePost ⟨some 1, some true⟩ ⟨some ⟨true, false⟩, some ⟨3, 0⟩⟩
    = (.ok 2 1, ⟨some ⟨false, true⟩, some ⟨2, 1⟩⟩) := by decide

example : runActions ⟨some 1, some true⟩ ⟨none, some ⟨4, 7⟩⟩ [.like, .dislike, .like]
    = ⟨some ⟨true, false⟩, some ⟨5, 7⟩⟩ := by decide

example : computeLeaderboard [⟨1, "A", [5]⟩, ⟨2, "B", [10]⟩, ⟨3, "C", [10]⟩]
    = [⟨1, 2, "B", 1, 10⟩, ⟨2, 3, "C", 1, 10⟩, ⟨3, 1, "A", 1, 5⟩] := by decide

example : deletePost (some 1) (some 1) ⟨some 1, 2, 3, 1⟩
    = (.storageError, ⟨some 1, 0, 3, 1⟩) := by decide

example : favoritePost ⟨some 1, some true⟩ false = (.ok, true) := by decide

/-- Every single reaction step either leaves the interaction row untouched
(error paths) or writes it to exactly `(liked, !liked)`. -/
theorem applyAction_interaction_cases (ctx : ReqCtx) (s : ReactionState) (a : Action) :
    (applyAction ctx s a).2.interaction = s.interaction
    ∨ (applyAction ctx s a).2.interaction = some ⟨true, false⟩
    ∨ (applyAction ctx s a).2.interaction = some ⟨false, true⟩ := by
  cases a <;>
    rcases huid : ctx.userId with _ | u <;>
      rcases hint : s.interaction with _ | i <;>
        rcases hpost : s.post with _ | p <;>
          simp [applyAction, likePost, dislikePost, huid, hint, hpost] <;>
            rcases i with ⟨il, id⟩ <;> cases il <;> cases id <;> simp [hint]

/-- C1: every sequence of like/dislike requests preserves the
mutual-exclusion invariant on the stored interaction row: `liked` and
`disliked` are never both true after any transition, whatever the caller,
initial counters, and request order. -/
theorem reaction_mutual_exclusion (ctx : ReqCtx) (acts : List Action) (s : ReactionState)
    (h : mutualExclB s = true) : mutualExclB (runActions ctx s acts) = true := by
  induction acts generalizing s with
  | nil => exact h
  | cons a rest ih =>
    refine ih _ ?_
    rcases applyAction_interaction_cases ctx s a with h1 | h1 | h1
    · simpa [mutualExclB, h1] using h
    · simp [mutualExclB, h1]
    · simp [mutualExclB, h1]

/-- Witness for `reaction_mutual_exclusion` at a concrete run. -/
theorem reaction_mutual_exclusion_witness :
    mutualExclB ⟨none, some ⟨0, 0⟩⟩ = true
    ∧ mutualExclB
        (runActions ⟨some 1, some true⟩ ⟨none, some ⟨0, 0⟩⟩ [.like, .dislike, .dislike, .like])
        = true :=
  ⟨by decide,
    reaction_mutual_exclusion ⟨some 1, some true⟩ [.like, .dislike, .dislike, .like]
      ⟨none, some ⟨0, 0⟩⟩ (by decide)⟩

/-- C10: whenever a like/dislike request writes the interaction row (the
create paths and the update paths alike), the written row has exactly one
of `liked`, `disliked` true; a row with both flags false is never
produced. -/
theorem interaction_rows_exactly_one (ctx : ReqCtx) (s : ReactionState) (a : Action)
    (h : (applyAction ctx s a).2.interaction ≠ s.interaction) :
    ∃ i, (applyAction ctx s a).2.interaction = some i
      ∧ ((i.liked = true ∧ i.disliked = false) ∨ (i.liked = false ∧ i.disliked = true)) := by
  rcases applyAction_interaction_cases ctx s a with h1 | h1 | h1
  · exact absurd h1 h
  · exact ⟨⟨true, false⟩, h1, Or.inl ⟨rfl, rfl⟩⟩
  · exact ⟨⟨false, true⟩, h1, Or.inr ⟨rfl, rfl⟩⟩

/-- Witness for `interaction_rows_exactly_one` at a concrete write. -/
theorem interaction_rows_exactly_one_witness :
    ∃ i, (applyAction ⟨some 1, some true⟩ ⟨none, some ⟨0, 0⟩⟩ .like).2.interaction = some i
      ∧ ((i.liked = true ∧ i.disliked = false) ∨ (i.liked = false ∧ i.disliked = true)) :=
  interaction_rows_exactly_one ⟨some 1, some true⟩ ⟨none, some ⟨0, 0⟩⟩ .like (by decide)

/-- C3: from state LIKED, a dislike flips the row to
`liked := false, disliked := true`, increments `dislikes` and decrements
`likes`; and in both controllers the opposite counter is decremented only
when the prior opposite flag was true — when the prior row has both flags
false, neither operation decrements anything. -/
theorem liked_dislike_flip :
    (∀ u : Nat, ∀ v : Option Bool, ∀ p : PostCounters,
        dislikePost ⟨some u, v⟩ ⟨some ⟨true, false⟩, some p⟩
          = (.ok (p.likes - 1) (p.dislikes + 1),
             ⟨some ⟨false, true⟩, some ⟨p.likes - 1, p.dislikes + 1⟩⟩))
    ∧ (∀ u : Nat, ∀ v : Option Bool, ∀ p : PostCounters, ∀ i : Interaction,
        i.liked = false → i.disliked = false →
        (likePost ⟨some u, v⟩ ⟨some i, some p⟩).2.post = some ⟨p.likes + 1, p.dislikes⟩)
    ∧ (∀ u : Nat, ∀ v : Option Bool, ∀ p : PostCounters, ∀ i : Interaction,
        i.liked = false → i.disliked = false →
        (dislikePost ⟨some u, v⟩ ⟨some i, some p⟩).2.post = some ⟨p.likes, p.dislikes + 1⟩) := by
  refine ⟨fun u v p => rfl, ?_, ?_⟩ <;>
  · rintro u v p ⟨il, idl⟩ h1 h2
    simp only at h1 h2
    subst h1 h2
    rfl

/-- Witness for `liked_dislike_flip` at concrete states. -/
theorem liked_dislike_flip_witness :
    dislikePost ⟨some 1, some true⟩ ⟨some ⟨true, false⟩, some ⟨2, 0⟩⟩
      = (.ok 1 1, ⟨some ⟨false, true⟩, some ⟨1, 1⟩⟩)
    ∧ (likePost ⟨some 2, none⟩ ⟨some ⟨false, false⟩, some ⟨5, 6⟩⟩).2.post = some ⟨6, 6⟩
    ∧ (dislikePost ⟨some 2, none⟩ ⟨some ⟨false, false⟩, some ⟨5, 6⟩⟩).2.post = some ⟨5, 7⟩ :=
  ⟨liked_dislike_flip.1 1 (some true) ⟨2, 0⟩,
   liked_dislike_flip.2.1 2 none ⟨5, 6⟩ ⟨false, false⟩ rfl rfl,
   liked_dislike_flip.2.2 2 none ⟨5, 6⟩ ⟨false, false⟩ rfl rfl⟩

/-- C4: a like on a pair whose row already has `liked` set is rejected
with "already liked" before any write — the interaction row and the post
counters are returned exactly as they were; symmetrically for a dislike
on a row with `disliked` set. -/
theorem already_reacted_noop :
    (∀ u : Nat, ∀ v : Option Bool, ∀ s : ReactionState, ∀ i : Interaction,
        s.interaction = some i → i.liked = true →
        likePost ⟨some u, v⟩ s = (.alreadyReacted, s))
    ∧ (∀ u : Nat, ∀ v : Option Bool, ∀ s : ReactionState, ∀ i : Interaction,
        s.interaction = some i → i.disliked = true →
        dislikePost ⟨some u, v⟩ s = (.alreadyReacted, s)) := by
  constructor <;>
  · intro u v s i hs hi
    simp [likePost, dislikePost, hs, hi]

/-- Witness for `already_reacted_noop` at concrete states. -/
theorem already_reacted_noop_witness :
    likePost ⟨some 1, some true⟩ ⟨some ⟨true, false⟩, some ⟨3, 4⟩⟩
      = (.alreadyReacted, ⟨some ⟨true, false⟩, some ⟨3, 4⟩⟩)
    ∧ dislikePost ⟨some 1, some true⟩ ⟨some ⟨false, true⟩, some ⟨3, 4⟩⟩
      = (.alreadyReacted, ⟨some ⟨false, true⟩, some ⟨3, 4⟩⟩) :=
  ⟨already_reacted_noop.1 1 (some true) ⟨some ⟨true, false⟩, some ⟨3, 4⟩⟩ ⟨true, false⟩ rfl rfl,
   already_reacted_noop.2 1 (some true) ⟨some ⟨false, true⟩, some ⟨3, 4⟩⟩ ⟨false, true⟩ rfl rfl⟩

/-- C7 counterexample: starting from state LIKED with counters (1, 0),
the sequence like, dislike, like ends with `likes = 1`, not the claimed
starting value plus 1 — the first like is rejected as "already liked", so
the flip-flop nets zero. The claim fails for starting states other than
NONE. -/
theorem flipflop_any_state_counterexample :
    (runActions ⟨some 1, some true⟩ ⟨some ⟨true, false⟩, some ⟨1, 0⟩⟩
        [.like, .dislike, .like]).post = some ⟨1, 0⟩
    ∧ ((1 : Int), (0 : Int)) ≠ ((1 : Int) + 1, (0 : Int)) := by decide

/-- C7 (amended): from state NONE — no interaction row — with any initial
counters (L, D), the sequence like, dislike, like ends in state LIKED
with `likes = L + 1` (net +1) and `dislikes = D` (net zero): the
flip-flop does not leak counts. -/
theorem flipflop_from_none (u : Nat) (v : Option Bool) (L D : Int) :
    runActions ⟨some u, v⟩ ⟨none, some ⟨L, D⟩⟩ [.like, .dislike, .like]
      = ⟨some ⟨true, false⟩, some ⟨L + 1, D⟩⟩ := by
  simp [runActions, applyAction, likePost, dislikePost]

/-- C2 counterexample: a caller whose user row has `verified = false`
likes a post successfully — the like controller performs the writes and
answers 200, not 403 Forbidden; no verification check runs. -/
theorem unverified_like_succeeds :
    likePost ⟨some 1, some false⟩ ⟨none, some ⟨0, 0⟩⟩
      = (.ok 1 0, ⟨some ⟨true, false⟩, some ⟨1, 0⟩⟩)
    ∧ (ReactOutcome.ok 1 0).status ≠ 403 := by decide

/-- C2 (amended): the verification flag gates create-post, comment,
favorite and unfavorite — each answers 403 Forbidden with no mutation for
a caller without `verified = true` — but like and dislike never read the
flag: their outcome and state are identical to those for a verified
caller. -/
theorem verification_gating :
    (∀ u : Nat, ∀ uv : Option Bool, uv ≠ some true →
        (∀ valid : Bool, ∀ n : Nat, createPost ⟨some u, uv⟩ valid n = (.forbidden, n))
      ∧ (∀ n : Nat, createComment ⟨some u, uv⟩ n = (.forbidden, n))
      ∧ (∀ f : Bool, favoritePost ⟨some u, uv⟩ f = (.forbidden, f))
      ∧ (∀ f : Bool, unfavoritePost ⟨some u, uv⟩ f = (.forbidden, f)))
    ∧ (∀ ctx : ReqCtx, ∀ s : ReactionState,
        likePost ctx s = likePost ⟨ctx.userId, some true⟩ s
      ∧ dislikePost ctx s = dislikePost ⟨ctx.userId, some true⟩ s) := by
  constructor
  · intro u uv hnv
    refine ⟨fun valid n => ?_, fun n => ?_, fun f => ?_, fun f => ?_⟩ <;>
      simp [createPost, createComment, favoritePost, unfavoritePost, hnv]
  · intro ctx s
    exact ⟨rfl, rfl⟩

/-- Witness for `verification_gating` at a concrete unverified caller. -/
theorem verification_gating_witness :
    createPost ⟨some 1, some false⟩ true 0 = (.forbidden, 0)
    ∧ createComment ⟨some 1, some false⟩ 0 = (.forbidden, 0)
    ∧ favoritePost ⟨some 1, some false⟩ false = (.forbidden, false)
    ∧ unfavoritePost ⟨some 1, some false⟩ true = (.forbidden, true)
    ∧ likePost ⟨some 1, some false⟩ ⟨none, some ⟨0, 0⟩⟩
        = likePost ⟨some 1, some true⟩ ⟨none, some ⟨0, 0⟩⟩ :=
  ⟨(verification_gating.1 1 (some false) (by decide)).1 true 0,
   (verification_gating.1 1 (some false) (by decide)).2.1 0,
   (verification_gating.1 1 (some false) (by decide)).2.2.1 false,
   (verification_gating.1 1 (some false) (by decide)).2.2.2 true,
   (verification_gating.2 ⟨some 1, some false⟩ ⟨none, some ⟨0, 0⟩⟩).1⟩

/-- C9 counterexample: a like naming a `postId` with no Post row is
answered 500 (the `prisma.post.update` call throws and the catch block
reports "Failed to like the post"), not 404 NotFound. -/
theorem missing_post_not_notfound :
    (likePost ⟨some 1, some true⟩ ⟨none, none⟩).1 = .storageError
    ∧ ReactOutcome.storageError.status = 500
    ∧ (500 : Nat) ≠ 404 := by decide

/-- C9 (amended): a missing `userId` makes like and dislike fail with the
invalid-user response before any mutation; a request naming a nonexistent
post (when not short-circuited by the already-reacted guard) fails with
the 500 storage error — the controllers never answer NotFound. -/
theorem react_error_paths :
    (∀ v : Option Bool, ∀ s : ReactionState,
        likePost ⟨none, v⟩ s = (.invalidUser, s)
      ∧ dislikePost ⟨none, v⟩ s = (.invalidUser, s))
    ∧ (∀ u : Nat, ∀ v : Option Bool, ∀ s : ReactionState,
        s.post = none →
        (Option.all (fun i => !i.liked) s.interaction = true →
          (likePost ⟨some u, v⟩ s).1 = .storageError)
      ∧ (Option.all (fun i => !i.disliked) s.interaction = true →
          (dislikePost ⟨some u, v⟩ s).1 = .storageError)) := by
  refine ⟨fun v s => ⟨rfl, rfl⟩, ?_⟩
  intro u v s hpost
  constructor <;>
  · intro hall
    rcases hint : s.interaction with _ | ⟨il, idl⟩
    · simp [likePost, dislikePost, hint, hpost]
    · rw [hint] at hall
      cases il <;> cases idl <;> simp_all [likePost, dislikePost, hint, hpost]

/-- Witness for `react_error_paths` at concrete states. -/
theorem react_error_paths_witness :
    likePost ⟨none, some true⟩ ⟨none, some ⟨0, 0⟩⟩ = (.invalidUser, ⟨none, some ⟨0, 0⟩⟩)
    ∧ (likePost ⟨some 1, some true⟩ ⟨none, none⟩).1 = .storageError
    ∧ (dislikePost ⟨some 1, some true⟩ ⟨none, none⟩).1 = .storageError :=
  ⟨(react_error_paths.1 (some true) ⟨none, some ⟨0, 0⟩⟩).1,
   (react_error_paths.2 1 (some true) ⟨none, none⟩ rfl).1 (by decide),
   (react_error_paths.2 1 (some true) ⟨none, none⟩ rfl).2 (by decide)⟩

/-- C8: for a verified caller, the favorite machine behaves as specified:
creating when absent succeeds, repeating when present fails with
AlreadyFavorited, deleting when present succeeds, deleting when absent
fails with NotFavorited; hence favorite, unfavorite, favorite each
succeed in sequence, while favorite twice in a row is rejected. -/
theorem favorite_state_machine (u : Nat) :
    favoritePost ⟨some u, some true⟩ false = (.ok, true)
    ∧ favoritePost ⟨some u, some true⟩ true = (.alreadyFavorited, true)
    ∧ unfavoritePost ⟨some u, some true⟩ true = (.ok, false)
    ∧ unfavoritePost ⟨some u, some true⟩ false = (.notFavorited, false)
    ∧ favoritePost ⟨some u, some true⟩
        (unfavoritePost ⟨some u, some true⟩ (favoritePost ⟨some u, some true⟩ false).2).2
        = (.ok, true)
    ∧ favoritePost ⟨some u, some true⟩ (favoritePost ⟨some u, some true⟩ false).2
        = (.alreadyFavorited, true) :=
  ⟨rfl, rfl, rfl, rfl, rfl, rfl⟩

/-- C5: the delete cascade is four sequential deletes with no surrounding
transaction. Concrete run: the author deletes a post with 2 interactions,
3 comments and 1 favorite, and the comment-deletion step throws — the
response is the 500 catch, the interaction rows are already gone, and the
post row is still present: the pre-call state is not preserved. (With no
failure the full cascade removes everything in order.) -/
theorem delete_cascade_not_atomic :
    deletePost (some 1) (some 1) ⟨some 1, 2, 3, 1⟩ = (.storageError, ⟨some 1, 0, 3, 1⟩)
    ∧ (⟨some 1, 0, 3, 1⟩ : DeleteState) ≠ ⟨some 1, 2, 3, 1⟩
    ∧ deletePost (some 1) none ⟨some 1, 2, 3, 1⟩ = (.ok, ⟨none, 0, 0, 0⟩) := by decide

/-- Pairwise relations survive enumeration: if consecutive elements of
`l` satisfy `R`, consecutive pairs of `l.enumFrom n` satisfy `R` on the
element components. -/
theorem pairwise_enumFrom {α : Type} {R : α → α → Prop} (n : Nat) (l : List α)
    (h : l.Pairwise R) : (l.enumFrom n).Pairwise fun p q => R p.2 q.2 := by
  induction l generalizing n with
  | nil => simp
  | cons x xs ih =>
    rcases List.pairwise_cons.mp h with ⟨hx, hxs⟩
    refine List.pairwise_cons.mpr ⟨?_, ih (n + 1) hxs⟩
    intro q hq
    have hmem : q.2 ∈ xs := by
      have hmap := List.enumFrom_map_snd (n + 1) xs
      exact hmap ▸ List.mem_map_of_mem Prod.snd hq
    exact hx q.2 hmem

/-- The ranks attached by the final `map` are the 1-based positions. -/
theorem enumFrom_map_rank {α : Type} (n : Nat) (l : List α) :
    (l.enumFrom n).map (fun p => p.1 + 1) = List.range' (n + 1) l.length := by
  induction l generalizing n with
  | nil => simp
  | cons x xs ih => simp [List.range', ih]

/-- C6: the leaderboard for users A (5 likes), B (10), C (10) ranks B
first and C second — the tied users keep their original enumeration
order under the stable sort — and A third; in general the output has at
most 10 entries, is sorted descending by `totalLikes`, and carries
`rank = 1`-based position. -/
theorem leaderboard_spec :
    computeLeaderboard [⟨1, "A", [5]⟩, ⟨2, "B", [10]⟩, ⟨3, "C", [10]⟩]
      = [⟨1, 2, "B", 1, 10⟩, ⟨2, 3, "C", 1, 10⟩, ⟨3, 1, "A", 1, 5⟩]
    ∧ (∀ us : List LUser, (computeLeaderboard us).length ≤ 10)
    ∧ (∀ us : List LUser,
        (computeLeaderboard us).Pairwise fun a b => b.totalLikes ≤ a.totalLikes)
    ∧ (∀ us : List LUser,
        (computeLeaderboard us).map LEntry.rank
          = List.range' 1 (computeLeaderboard us).length) := by
  refine ⟨by decide, ?_, ?_, ?_⟩
  · intro us
    simp [computeLeaderboard]
  · intro us
    have hs : (sortDesc (us.map userLikesOf)).Pairwise byLikesDesc :=
      List.sorted_insertionSort byLikesDesc (us.map userLikesOf)
    have ht : ((sortDesc (us.map userLikesOf)).take 10).Pairwise byLikesDesc :=
      hs.sublist (List.take_sublist 10 _)
    have he := pairwise_enumFrom 0 _ ht
    rw [computeLeaderboard, List.pairwise_map]
    exact he.imp fun hpq => hpq
  · intro us
    rw [computeLeaderboard, List.map_map, List.length_map, List.enum_length]
    exact enumFrom_map_rank 0 _

end StyleShare
